import Mathlib

/-!
Shallow embedding of the ECleaningBT repository: a Bluetooth connection
screen (componentized as state-passing functions over an explicit screen
state and an environment of external-collaborator outcomes) and a
build-time manifest patcher (a pure transform on an Info.plist record).
-/

/-- A discovered Bluetooth device: optional name, address as identity. -/
structure Device where
  name : Option String
  address : String
deriving DecidableEq, Repr

/-- The screen-local state held via useState hooks in the component. -/
structure ScreenState where
  devices : List Device
  connectedDevice : Option Device
  loading : Bool
  scanning : Bool
  isBtEnabled : Bool
deriving DecidableEq, Repr

/-- Observable side effects emitted by the operations: console logs,
user-facing alerts, and markers for calls into the external collaborators. -/
inductive Effect where
  | log : String → Effect
  | alert : String → String → Effect
  | queriedAdapter : Effect
  | requestedPerms : Effect
  | startedDiscovery : Effect
  | calledConnect : Device → Effect
  | calledDisconnect : Device → Effect
deriving DecidableEq, Repr

/-- Outcomes of the external Bluetooth collaborator calls for one run:
each call either returns a value or throws an error with a message. -/
structure BtEnv where
  isBluetoothEnabled : Except String Bool
  startDiscovery : Except String (List Device)
  connectResult : Device → Except String Bool
  disconnectResult : Device → Except String Bool

/-- The two platform families distinguished by Platform.OS. -/
inductive PlatformOS where
  | android : PlatformOS
  | ios : PlatformOS
deriving DecidableEq, Repr

/-- Runtime permissions from the PermissionsAndroid.PERMISSIONS namespace
that are relevant here (the source requests FINE location, never COARSE,
but both exist on the platform so both are representable). -/
inductive Permission where
  | ACCESS_FINE_LOCATION : Permission
  | ACCESS_COARSE_LOCATION : Permission
  | BLUETOOTH_SCAN : Permission
  | BLUETOOTH_CONNECT : Permission
deriving DecidableEq, Repr

/-- Grant status returned by PermissionsAndroid.requestMultiple. -/
inductive GrantStatus where
  | granted : GrantStatus
  | denied : GrantStatus
  | never_ask_again : GrantStatus
deriving DecidableEq, Repr

/-- Platform environment for requestPermissions: OS family, the parsed
Device.osVersion (none models a falsy osVersion or a NaN parse, for which
the JavaScript guard `Device.osVersion && parseInt(...) < 12` is false),
and the per-permission grant outcome. -/
structure PermEnv where
  os : PlatformOS
  osVersion : Option Nat
  grant : Permission → GrantStatus

/-- JavaScript runtime errors the embedding tracks explicitly. The iOS
branch of requestPermissions references the identifier Permissions, which
is never imported or declared in the file, so evaluating it throws a
ReferenceError. -/
inductive JsError where
  | referenceErrorPermissionsUndefined : JsError
deriving DecidableEq, Repr

/-- The message property of the modelled JavaScript error. -/
def JsError.message : JsError → String
  | .referenceErrorPermissionsUndefined => "Permissions is not defined"

/-- The Android permission list built by requestPermissions: start from
[ACCESS_FINE_LOCATION, BLUETOOTH_SCAN, BLUETOOTH_CONNECT]; when
Device.osVersion is truthy and parses below 12, splice(1, 2) removes the
scan and connect entries. -/
def requestedPermissions (osVersion : Option Nat) : List Permission :=
  let permissions : List Permission :=
    [Permission.ACCESS_FINE_LOCATION, Permission.BLUETOOTH_SCAN,
      Permission.BLUETOOTH_CONNECT]
  if (match osVersion with
      | some v => decide (v < 12)
      | none => false) then
    permissions.take 1 ++ permissions.drop 3
  else
    permissions

/-- requestPermissions: on Android, requests the version-dependent list and
returns whether every status is GRANTED; on the other family the code body
is `Permissions.askAsync(Permissions.BLUETOOTH)` with `Permissions`
undefined, so the call throws a ReferenceError. -/
def requestPermissions (env : PermEnv) : Except JsError Bool :=
  match env.os with
  | PlatformOS.android =>
      Except.ok ((requestedPermissions env.osVersion).all
        (fun p => env.grant p == GrantStatus.granted))
  | PlatformOS.ios =>
      Except.error JsError.referenceErrorPermissionsUndefined

/-- checkBluetooth: queries isBluetoothEnabled; on success stores the
result in isBtEnabled and returns it; on a thrown error logs and returns
false, leaving the stored state untouched (the catch branch performs no
state update). Returns (result, new state, effects). -/
def checkBluetooth (env : BtEnv) (s : ScreenState) :
    Bool × ScreenState × List Effect :=
  match env.isBluetoothEnabled with
  | Except.ok enabled =>
      (enabled, { s with isBtEnabled := enabled }, [Effect.queriedAdapter])
  | Except.error _ =>
      (false, s,
        [Effect.queriedAdapter, Effect.log "Bluetooth check failed"])

/-- Full environment for discoverDevices: permission collaborator plus
Bluetooth collaborator outcomes. -/
structure FullEnv where
  perm : PermEnv
  bt : BtEnv

/-- discoverDevices: sets scanning=true and clears the device list, then
requests permissions (alert and return if denied), checks the adapter
(alert and return if disabled), and runs discovery, replacing the device
list. A thrown error anywhere in the try block is caught, logged and
alerted. The finally block clears the scanning flag on every path. -/
def discoverDevices (env : FullEnv) (s : ScreenState) :
    ScreenState × List Effect :=
  let s1 : ScreenState := { s with scanning := true, devices := [] }
  match requestPermissions env.perm with
  | Except.error e =>
      ({ s1 with scanning := false },
        [Effect.requestedPerms, Effect.log "Discovery error",
          Effect.alert "Error"
            ("Failed to discover devices: " ++ e.message)])
  | Except.ok hasPermissions =>
      if !hasPermissions then
        ({ s1 with scanning := false },
          [Effect.requestedPerms,
            Effect.alert "Permissions required"
              "Bluetooth and location permissions are needed to find devices"])
      else
        let cb := checkBluetooth env.bt s1
        if !cb.1 then
          ({ cb.2.1 with scanning := false },
            [Effect.requestedPerms] ++ cb.2.2 ++
              [Effect.alert "Bluetooth disabled"
                "Please enable Bluetooth to discover devices"])
        else
          match env.bt.startDiscovery with
          | Except.ok discovered =>
              ({ cb.2.1 with devices := discovered, scanning := false },
                [Effect.requestedPerms] ++ cb.2.2 ++
                  [Effect.startedDiscovery])
          | Except.error msg =>
              ({ cb.2.1 with scanning := false },
                [Effect.requestedPerms] ++ cb.2.2 ++
                  [Effect.startedDiscovery, Effect.log "Discovery error",
                    Effect.alert "Error"
                      ("Failed to discover devices: " ++ msg)])

/-- connectToDevice: sets loading=true, calls device.connect(); on a true
result records the device as connected, on a false result alerts, on a
thrown error logs and alerts. The finally block clears loading on every
path. -/
def connectToDevice (env : BtEnv) (device : Device) (s : ScreenState) :
    ScreenState × List Effect :=
  let s1 : ScreenState := { s with loading := true }
  match env.connectResult device with
  | Except.ok true =>
      ({ s1 with connectedDevice := some device, loading := false },
        [Effect.calledConnect device])
  | Except.ok false =>
      ({ s1 with loading := false },
        [Effect.calledConnect device,
          Effect.alert "Connection failed" "Could not connect to the device"])
  | Except.error msg =>
      ({ s1 with loading := false },
        [Effect.calledConnect device, Effect.log "Connection error",
          Effect.alert "Error" ("Connection failed: " ++ msg)])

/-- disconnectDevice: does nothing when no device is connected; otherwise
sets loading=true, awaits disconnect() with its boolean result discarded,
and clears connectedDevice whenever the call returns normally; a thrown
error is logged and alerted, leaving connectedDevice unchanged. The
finally block clears loading on every path. -/
def disconnectDevice (env : BtEnv) (s : ScreenState) :
    ScreenState × List Effect :=
  match s.connectedDevice with
  | none => (s, [])
  | some device =>
      let s1 : ScreenState := { s with loading := true }
      match env.disconnectResult device with
      | Except.ok _ =>
          ({ s1 with connectedDevice := none, loading := false },
            [Effect.calledDisconnect device])
      | Except.error msg =>
          ({ s1 with loading := false },
            [Effect.calledDisconnect device, Effect.log "Disconnection error",
              Effect.alert "Error" ("Disconnection failed: " ++ msg)])

/-- The Info.plist contents touched by the config plugin: the three keys
the plugin writes, plus the untouched remainder of the plist. -/
structure InfoPlist where
  nsBluetoothAlwaysUsageDescription : Option String
  nsBluetoothPeripheralUsageDescription : Option String
  uiBackgroundModes : Option (List String)
  other : List (String × String)
deriving DecidableEq, Repr

/-- withBluetoothClassic: assigns both usage-description strings and
assigns UIBackgroundModes to the one-element list, overwriting whatever
value the key held before. -/
def withBluetoothClassic (plist : InfoPlist) : InfoPlist :=
  { plist with
    nsBluetoothAlwaysUsageDescription :=
      some "Allow Bluetooth access to connect to E-Cleaning devices",
    nsBluetoothPeripheralUsageDescription :=
      some "Allow Bluetooth access to connect to E-Cleaning devices",
    uiBackgroundModes := some ["bluetooth-central"] }

/-- A sample device used in concrete scenarios. -/
def devA : Device := { name := some "E-Clean", address := "00:11:22:33:44:55" }

/-- Screen state with devA recorded as connected. -/
def stConnectedA : ScreenState :=
  { devices := [], connectedDevice := some devA, loading := false,
    scanning := false, isBtEnabled := true }

/-- Screen state with nothing connected and the adapter flag false. -/
def stEmpty : ScreenState :=
  { devices := [], connectedDevice := none, loading := false,
    scanning := false, isBtEnabled := false }

/-- Screen state with nothing connected and the adapter flag true. -/
def stBtTrue : ScreenState :=
  { devices := [], connectedDevice := none, loading := false,
    scanning := false, isBtEnabled := true }

/-- Environment where disconnect returns the boolean false. -/
def envDiscFalse : BtEnv :=
  { isBluetoothEnabled := Except.ok true, startDiscovery := Except.ok [],
    connectResult := fun _ => Except.ok true,
    disconnectResult := fun _ => Except.ok false }

/-- Environment where disconnect throws. -/
def envDiscThrow : BtEnv :=
  { isBluetoothEnabled := Except.ok true, startDiscovery := Except.ok [],
    connectResult := fun _ => Except.ok true,
    disconnectResult := fun _ => Except.error "socket closed" }

/-- Environment where the adapter query throws. -/
def envAdapterThrow : BtEnv :=
  { isBluetoothEnabled := Except.error "adapter gone",
    startDiscovery := Except.ok [],
    connectResult := fun _ => Except.ok true,
    disconnectResult := fun _ => Except.ok true }

/-- Environment where connect returns the boolean false. -/
def envConnFalse : BtEnv :=
  { isBluetoothEnabled := Except.ok true, startDiscovery := Except.ok [],
    connectResult := fun _ => Except.ok false,
    disconnectResult := fun _ => Except.ok true }

/-- Permission environment: iOS, modern version, everything grantable. -/
def iosEnv : PermEnv :=
  { os := PlatformOS.ios, osVersion := some 16,
    grant := fun _ => GrantStatus.granted }

/-- Permission environment: Android 13 with every permission denied. -/
def permDenied : PermEnv :=
  { os := PlatformOS.android, osVersion := some 13,
    grant := fun _ => GrantStatus.denied }

/-- Full environment combining the denied permissions with a healthy
Bluetooth collaborator. -/
def envDeniedFull : FullEnv := { perm := permDenied, bt := envDiscFalse }

/-- Info.plist that already carries a background mode before patching. -/
def plistWithAudio : InfoPlist :=
  { nsBluetoothAlwaysUsageDescription := none,
    nsBluetoothPeripheralUsageDescription := none,
    uiBackgroundModes := some ["audio"],
    other := [] }

/-- Claim C1 counterexample: with devA connected and disconnect() returning
the boolean false, the code still clears connectedDevice to none, so the
device is not kept recorded as connected on a boolean-false result. -/
theorem disconnectDevice_false_result_clears_state :
    envDiscFalse.disconnectResult devA = Except.ok false ∧
    stConnectedA.connectedDevice = some devA ∧
    (disconnectDevice envDiscFalse stConnectedA).1.connectedDevice = none :=
  ⟨rfl, rfl, rfl⟩

/-- Claim C1 (amended): disconnect() is a no-op when no device is
connected; otherwise loading is false on exit, the state is cleared to
Disconnected whenever the disconnect call returns without throwing (its
boolean result is ignored, so this includes a false result), and on a
thrown error the device stays recorded as connected and an alert is
shown. -/
theorem disconnectDevice_spec (env : BtEnv) (s : ScreenState) :
    (s.connectedDevice = none → disconnectDevice env s = (s, [])) ∧
    (∀ d, s.connectedDevice = some d →
      (disconnectDevice env s).1.loading = false ∧
      (∀ b, env.disconnectResult d = Except.ok b →
        (disconnectDevice env s).1.connectedDevice = none) ∧
      (∀ msg, env.disconnectResult d = Except.error msg →
        (disconnectDevice env s).1.connectedDevice = some d ∧
        Effect.alert "Error" ("Disconnection failed: " ++ msg) ∈
          (disconnectDevice env s).2)) := by
  constructor
  · intro h
    simp [disconnectDevice, h]
  · intro d hd
    refine ⟨?_, ?_, ?_⟩
    · rcases hr : env.disconnectResult d with msg | b <;>
        simp [disconnectDevice, hd, hr]
    · intro b hb
      simp [disconnectDevice, hd, hb]
    · intro msg hm
      simp [disconnectDevice, hd, hm]

/-- Claim C1 witness: concrete run of the amended theorem with a thrown
disconnect error. -/
theorem disconnectDevice_spec_witness :
    (disconnectDevice envDiscThrow stConnectedA).1.connectedDevice =
      some devA ∧
    Effect.alert "Error" ("Disconnection failed: " ++ "socket closed") ∈
      (disconnectDevice envDiscThrow stConnectedA).2 :=
  ((disconnectDevice_spec envDiscThrow stConnectedA).2 devA rfl).2.2
    "socket closed" rfl

/-- Claim C2 counterexample: when the adapter query throws while the
stored flag is true, checkBluetooth returns false but leaves isBtEnabled
at true, so the stored AdapterState is not updated to disabled. -/
theorem checkBluetooth_failure_keeps_state :
    envAdapterThrow.isBluetoothEnabled = Except.error "adapter gone" ∧
    stBtTrue.isBtEnabled = true ∧
    (checkBluetooth envAdapterThrow stBtTrue).1 = false ∧
    (checkBluetooth envAdapterThrow stBtTrue).2.1.isBtEnabled = true :=
  ⟨rfl, rfl, rfl, rfl⟩

/-- Claim C2 (amended): when the adapter query throws, checkBluetooth
never propagates the error, logs the failure, and reports the adapter as
disabled by returning false, while leaving the stored AdapterState
unchanged (the state update happens only on a successful query). -/
theorem checkBluetooth_failure_spec (env : BtEnv) (s : ScreenState)
    (msg : String) (h : env.isBluetoothEnabled = Except.error msg) :
    checkBluetooth env s =
      (false, s,
        [Effect.queriedAdapter, Effect.log "Bluetooth check failed"]) := by
  simp [checkBluetooth, h]

/-- Claim C2 witness: concrete run of the amended theorem. -/
theorem checkBluetooth_failure_spec_witness :
    checkBluetooth envAdapterThrow stBtTrue =
      (false, stBtTrue,
        [Effect.queriedAdapter, Effect.log "Bluetooth check failed"]) :=
  checkBluetooth_failure_spec envAdapterThrow stBtTrue "adapter gone" rfl

/-- Claim C3: on the non-Android platform family requestPermissions does
not return a boolean: it throws a ReferenceError, because the identifier
Permissions is never imported or defined in the source file. -/
theorem requestPermissions_ios_reference_error :
    requestPermissions iosEnv =
      Except.error JsError.referenceErrorPermissionsUndefined := rfl

/-- Claim C5 counterexample: at platform version 11 (below the threshold)
the requested set is exactly the fine-location capability; the
coarse-location capability named by the claim is not requested. -/
theorem requestedPermissions_old_version_fine_location :
    requestedPermissions (some 11) = [Permission.ACCESS_FINE_LOCATION] ∧
    Permission.ACCESS_COARSE_LOCATION ∉ requestedPermissions (some 11) := by
  decide

/-- Claim C5 (amended): below the modern threshold the runtime-grant
platform requests only the fine-location capability (ACCESS_FINE_LOCATION,
not coarse location); at or above the threshold it additionally requests
the explicit scan and connect capabilities. -/
theorem requestedPermissions_version_spec (v : Nat) :
    (v < 12 →
      requestedPermissions (some v) = [Permission.ACCESS_FINE_LOCATION]) ∧
    (12 ≤ v →
      requestedPermissions (some v) =
        [Permission.ACCESS_FINE_LOCATION, Permission.BLUETOOTH_SCAN,
          Permission.BLUETOOTH_CONNECT]) := by
  constructor
  · intro h
    simp [requestedPermissions, h]
  · intro h
    simp [requestedPermissions, Nat.not_lt.mpr h]

/-- Claim C5 witness: concrete run of the amended theorem at version 11. -/
theorem requestedPermissions_version_spec_witness :
    requestedPermissions (some 11) = [Permission.ACCESS_FINE_LOCATION] :=
  (requestedPermissions_version_spec 11).1 (by decide)

/-- Claim C6: for every platform version at or above the Android 12
threshold, the requested permission set includes the scan and connect
capabilities; for every version below it, it includes neither. -/
theorem requestedPermissions_threshold (v : Nat) :
    (12 ≤ v →
      Permission.BLUETOOTH_SCAN ∈ requestedPermissions (some v) ∧
      Permission.BLUETOOTH_CONNECT ∈ requestedPermissions (some v)) ∧
    (v < 12 →
      Permission.BLUETOOTH_SCAN ∉ requestedPermissions (some v) ∧
      Permission.BLUETOOTH_CONNECT ∉ requestedPermissions (some v)) := by
  constructor
  · intro h
    simp [requestedPermissions, Nat.not_lt.mpr h]
  · intro h
    simp [requestedPermissions, h]

/-- Claim C6 witness: concrete runs of the theorem at versions 12 and 11. -/
theorem requestedPermissions_threshold_witness :
    Permission.BLUETOOTH_SCAN ∈ requestedPermissions (some 12) ∧
    Permission.BLUETOOTH_SCAN ∉ requestedPermissions (some 11) :=
  ⟨((requestedPermissions_threshold 12).1 (by decide)).1,
    ((requestedPermissions_threshold 11).2 (by decide)).1⟩

/-- Claim C7: after any call to discoverDevices the scanning flag is
false, on every exit path (normal completion, permission denial, adapter
disabled, thrown error), because the finally block always clears it. -/
theorem discoverDevices_scanning_false (env : FullEnv) (s : ScreenState) :
    (discoverDevices env s).1.scanning = false := by
  unfold discoverDevices
  rcases requestPermissions env.perm with e | b
  · rfl
  · cases b
    · rfl
    · simp only [Bool.not_true]
      rcases (checkBluetooth env.bt _).1 with _ | _
      · rfl
      · rcases env.bt.startDiscovery with msg | ds <;> rfl

/-- Claim C8: connect(device), started from an unconnected screen, leaves
loading false on exit in every case; on a true result it records the
device as connected; on a boolean-false result or a thrown error it shows
an alert and the state remains Disconnected. -/
theorem connectToDevice_spec (env : BtEnv) (d : Device) (s : ScreenState)
    (h : s.connectedDevice = none) :
    (connectToDevice env d s).1.loading = false ∧
    (env.connectResult d = Except.ok true →
      (connectToDevice env d s).1.connectedDevice = some d) ∧
    (env.connectResult d = Except.ok false →
      (connectToDevice env d s).1.connectedDevice = none ∧
      Effect.alert "Connection failed" "Could not connect to the device" ∈
        (connectToDevice env d s).2) ∧
    (∀ msg, env.connectResult d = Except.error msg →
      (connectToDevice env d s).1.connectedDevice = none ∧
      Effect.alert "Error" ("Connection failed: " ++ msg) ∈
        (connectToDevice env d s).2) := by
  refine ⟨?_, ?_, ?_, ?_⟩
  · rcases hr : env.connectResult d with msg | b
    · simp [connectToDevice, hr]
    · cases b <;> simp [connectToDevice, hr]
  · intro hr
    simp [connectToDevice, hr]
  · intro hr
    simp [connectToDevice, hr, h]
  · intro msg hr
    simp [connectToDevice, hr, h]

/-- Claim C8 witness: concrete run with a boolean-false connect result. -/
theorem connectToDevice_spec_witness :
    (connectToDevice envConnFalse devA stEmpty).1.loading = false ∧
    (connectToDevice envConnFalse devA stEmpty).1.connectedDevice = none :=
  ⟨(connectToDevice_spec envConnFalse devA stEmpty rfl).1,
    ((connectToDevice_spec envConnFalse devA stEmpty rfl).2.2.1 rfl).1⟩

/-- Claim C9: when the permission request resolves to denied, the adapter
query and the discovery call are never performed and the permissions
alert is shown. -/
theorem discoverDevices_denied_spec (env : FullEnv) (s : ScreenState)
    (h : requestPermissions env.perm = Except.ok false) :
    Effect.queriedAdapter ∉ (discoverDevices env s).2 ∧
    Effect.startedDiscovery ∉ (discoverDevices env s).2 ∧
    Effect.alert "Permissions required"
      "Bluetooth and location permissions are needed to find devices" ∈
      (discoverDevices env s).2 := by
  simp [discoverDevices, h]

/-- Claim C9 witness: concrete run with every Android permission denied. -/
theorem discoverDevices_denied_spec_witness :
    Effect.queriedAdapter ∉ (discoverDevices envDeniedFull stEmpty).2 ∧
    Effect.startedDiscovery ∉ (discoverDevices envDeniedFull stEmpty).2 :=
  ⟨(discoverDevices_denied_spec envDeniedFull stEmpty rfl).1,
    (discoverDevices_denied_spec envDeniedFull stEmpty rfl).2.1⟩

/-- Claim C4 counterexample: a manifest already carrying the background
mode audio loses it: the patcher replaces the background-modes list
wholesale instead of appending while preserving existing entries. -/
theorem withBluetoothClassic_drops_existing_modes :
    plistWithAudio.uiBackgroundModes = some ["audio"] ∧
    (withBluetoothClassic plistWithAudio).uiBackgroundModes =
      some ["bluetooth-central"] ∧
    "audio" ∉
      ((withBluetoothClassic plistWithAudio).uiBackgroundModes.getD []) := by
  refine ⟨rfl, rfl, by decide⟩

/-- Claim C4 (amended): for every input manifest the patcher sets exactly
the two fixed permission-justification strings and replaces the
background-modes list with the one-element list containing the
background-capability tag, discarding any entries already present; all
other manifest content is preserved. -/
theorem withBluetoothClassic_spec (plist : InfoPlist) :
    (withBluetoothClassic plist).nsBluetoothAlwaysUsageDescription =
      some "Allow Bluetooth access to connect to E-Cleaning devices" ∧
    (withBluetoothClassic plist).nsBluetoothPeripheralUsageDescription =
      some "Allow Bluetooth access to connect to E-Cleaning devices" ∧
    (withBluetoothClassic plist).uiBackgroundModes =
      some ["bluetooth-central"] ∧
    (withBluetoothClassic plist).other = plist.other :=
  ⟨rfl, rfl, rfl, rfl⟩

/-- Claim C10: the manifest patcher is idempotent: applying it twice
yields the same manifest as applying it once, since every written field is
assigned a fixed constant. -/
theorem withBluetoothClassic_idempotent (plist : InfoPlist) :
    withBluetoothClassic (withBluetoothClassic plist) =
      withBluetoothClassic plist := rfl
